import Mathlib

/-!
Shallow embedding of the diatom OTU pipeline `src/depreciated/biosys5.1.py`
(sample registry, identifier normalization, control classification, abundance
merging, plate topology and the Baroni-Urbani-Buser similarity pass), with
theorems settling the specification's claims about it.

Python strings are Lean `String`s, Python ints are `Int`/`Nat`, Python floats
are `ℝ`, a Python value that may be `None` is an `Option`, and code that can
raise an uncaught exception returns `Except PyErr`.
-/

/-- Kinds of Python exceptions the embedded code can raise or catch. -/
inductive PyErr where
  | zeroDivision
  | valueError
  | statisticsError
  | typeError
  | unboundLocal
  | nameError
  | indexError
  | attributeError
deriving DecidableEq

/-- The global sentinel `no_value` (biosys5.1.py line 43). -/
def no_value : String := "no_value"

/-- Every character of the list is a decimal digit. -/
def allDigits (l : List Char) : Bool := l.all (fun c => c.isDigit)

/-- Numeric value of a list of decimal-digit characters, most significant
first: the accumulation Python's `int` performs on a decimal literal. -/
def digitsVal (l : List Char) : Nat := l.foldl (fun a c => a * 10 + (c.toNat - 48)) 0

/-- Leading and trailing spaces removed: Python's `int` ignores surrounding
whitespace in its string argument. -/
def trimSpaces (l : List Char) : List Char :=
  ((l.dropWhile (fun c => c = ' ')).reverse.dropWhile (fun c => c = ' ')).reverse

/-- Core of Python `int(s)` on a trimmed string: an optional sign followed by
one or more decimal digits; any other shape raises ValueError (`none` here). -/
def pyIntCore (l : List Char) : Option Int :=
  if l = [] then none
  else if l.head? = some '-' then
    (if l.tail = [] then none
     else if allDigits l.tail then some (-(digitsVal l.tail : Int)) else none)
  else if l.head? = some '+' then
    (if l.tail = [] then none
     else if allDigits l.tail then some ((digitsVal l.tail : Int)) else none)
  else if allDigits l then some ((digitsVal l : Int)) else none

/-- Python `int(s)` for a string `s`: `some` the parsed integer, `none` for
the ValueError case. -/
def pyInt (s : String) : Option Int := pyIntCore (trimSpaces s.toList)

/-- The decimal digits of a natural number, most significant first. -/
def natDigits (n : Nat) : List Char :=
  if _h : n < 10 then [Nat.digitChar n]
  else natDigits (n / 10) ++ [Nat.digitChar (n % 10)]
decreasing_by exact Nat.div_lt_self (by omega) (by omega)

/-- Python `str` of an int: a minus sign for negatives, then decimal digits. -/
def strOfInt (n : Int) : String :=
  ⟨if n < 0 then '-' :: natDigits n.natAbs else natDigits n.natAbs⟩

/-- Python `str.replace(".", "")`: every full stop removed. -/
def removeDots (s : String) : String := ⟨s.toList.filter (fun c => c ≠ '.')⟩

/-- Folder canonicalization from `Diatom_Sample.__init__` (lines 81-87):
`str(int(folder))` when the folder parses as an int, else `str(folder)`. -/
def normFolder (x : String) : String :=
  match pyInt x with
  | some n => strOfInt n
  | none => x

/-- Sample-id canonicalization (lines 89-93): decimal separators removed,
then `str(int(...))` when that parses, else the string form unchanged. -/
def normSampleId (x : String) : String :=
  match pyInt (removeDots x) with
  | some n => strOfInt n
  | none => x

/-- Site-id canonicalization (lines 97-98): identical parse to the sample-id
rule but with NO `except ValueError` handler, so a non-parsing site id raises
out of the constructor. -/
def normSiteId (x : String) : Except PyErr String :=
  match pyInt (removeDots x) with
  | some n => .ok (strOfInt n)
  | none => .error .valueError

/-- Whitespace-separated words of a string, empty words dropped, as Python's
argumentless `str.split()`. -/
def pyWordsGo (cur : List Char) (l : List Char) : List (List Char) :=
  match l with
  | [] => if cur = [] then [] else [cur.reverse]
  | c :: rest =>
    if c = ' ' then
      (if cur = [] then pyWordsGo [] rest else cur.reverse :: pyWordsGo [] rest)
    else pyWordsGo (c :: cur) rest

/-- First letter upper-cased, the rest lower-cased: one word of `get_capital`. -/
def capWord (w : List Char) : List Char :=
  match w with
  | [] => []
  | c :: rest => Char.toUpper c :: rest.map Char.toLower

/-- Words re-joined with single spaces (the loop in `get_capital` builds
`word + " "` and strips the trailing space). -/
def joinSpace : List (List Char) → List Char
  | [] => []
  | [w] => w
  | w :: rest => w ++ ' ' :: joinSpace rest

/-- `get_capital` (biosys5.1.py lines 612-620): title-case every
whitespace-separated word. -/
def get_capital (s : String) : String :=
  ⟨joinSpace ((pyWordsGo [] s.toList).map capWord)⟩

/-- One taxon row of a two-column OTU slice: taxon id and a count. -/
abbrev OtuRow := String × Nat

/-- A sample's private two-column abundance slice (`PrefTaxon` plus the one
sample column whose header is `header`). -/
structure Slice where
  header : String
  rows : List OtuRow
deriving DecidableEq

/-- The mutable `Diatom_Sample` record, restricted to the fields the claims
touch. `plate` and `sur_samples` are attributes that do not exist until
`assign_surrounding_samples` sets them (`none` = reading them raises
AttributeError); `plate_loc` is initialized to the `no_value` string and
`none` models that sentinel. The passthrough fields `prn`, `sitename`,
`sampledate`, `barcode` and the derived `reg_area` cannot raise for string
inputs and play no role in any claim, so they are not modelled. -/
structure Sample where
  folder : String
  sampleid : String
  siteid : String
  area : String
  region : String
  batch_num : String
  analysis_date : String
  count : Nat
  pass_fail : String
  otu_tab : Option Slice
  sim : ℝ
  sim_sample : String
  note : String
  plate : Option String
  plate_loc : Option (Int × Int)
  sur_samples : Option (List (Int × Int))

/-- A fixed sample used only as the default of `List.getD`. -/
def dummySample : Sample :=
  { folder := "", sampleid := "", siteid := "", area := "", region := "",
    batch_num := "", analysis_date := "", count := 0, pass_fail := "",
    otu_tab := none, sim := 0, sim_sample := "", note := "", plate := none,
    plate_loc := none, sur_samples := none }

/-- Python truthiness of an optional string argument (`None` and the empty
string are falsy; a missing metadata cell is `none`). -/
def truthy : Option String → Bool
  | none => false
  | some s => s ≠ ""

/-- The `Diatom_Sample` constructor (lines 80-157). Only the site-id branch
can raise for string-valued inputs: it parses with `int` and has no
ValueError handler. Defaults of the computed fields follow lines 149-157. -/
def Diatom_Sample_init (sampleid siteid area region _prn _sitename _sampledate
    _barcode folder : Option String) : Except PyErr Sample :=
  let folderV := if truthy folder then normFolder (folder.getD "") else no_value
  let sampleidV :=
    if truthy sampleid then normSampleId (sampleid.getD "") else "F" ++ folderV
  let areaV := if truthy area then get_capital (area.getD "") else no_value
  let regionV :=
    if truthy region then
      (if region.getD "" = "nan" then no_value else get_capital (region.getD ""))
    else no_value
  match (if truthy siteid then normSiteId (siteid.getD "") else .ok no_value) with
  | .error e => .error e
  | .ok siteidV =>
    .ok { folder := folderV, sampleid := sampleidV, siteid := siteidV,
          area := areaV, region := regionV, batch_num := no_value,
          analysis_date := no_value, count := 0, pass_fail := "Unsuccessful",
          otu_tab := none, sim := 0, sim_sample := no_value, note := "",
          plate := none, plate_loc := none, sur_samples := none }

/-- The `batch_num_dict` run-to-date lookup table (lines 49-66). -/
def batch_num_dict : List (String × String) :=
  [("Run_1", "25-01-19"), ("Run_2", "15-01-19"), ("Run_3", "18-01-19"),
   ("Run_4", "21-01-19"), ("Run_5", "18-01-19"), ("Run_6", "24-01-19"),
   ("Run_7", "28-01-19"), ("Run_8", "31-01-19"), ("Run_9", "04-02-19"),
   ("Run_10", "07-02-19"), ("Run_11", "12-02-19"), ("Run_12", "15-02-19"),
   ("Run_13", "23-02-19"), ("Run_14", "28-03-19"), ("Run_15", "19-04-19"),
   ("Run_16", "23-04-19"), ("Run_17", "17-05-19")]

/-- Dictionary lookup with the KeyError handler of lines 184-188: a missing
run id yields the diagnostic message instead of raising. -/
def lookupDate (b : String) : String :=
  match batch_num_dict.lookup b with
  | some d => d
  | none => "Run metadata has not been set"

/-- Sum of the sample's column of its slice; `none` is the KeyError case
(the folder key is not a column of the table). -/
def sliceColSum (sl : Slice) (key : String) : Option Nat :=
  if sl.header = key then some (sl.rows.foldl (fun a r => a + r.2) 0) else none

/-- `Diatom_Sample.assign_results` (lines 171-192): stores the slice, recomputes
`count` (0 with a diagnostic on KeyError), sets `pass_fail` to "Successful"
when `count >= 3000` — with NO else branch resetting it — and resolves
`batch_num`/`analysis_date` from the run lookup. -/
def assign_results (s : Sample) (otus : Slice) (batch : Option String) : Sample :=
  let count := (sliceColSum otus s.folder).getD 0
  let pf := if count ≥ 3000 then "Successful" else s.pass_fail
  if truthy batch then
    let bn := ((batch.getD "").splitOn ".").headD ""
    { s with otu_tab := some otus, count := count, pass_fail := pf,
             batch_num := bn, analysis_date := lookupDate bn }
  else
    { s with otu_tab := some otus, count := count, pass_fail := pf,
             batch_num := no_value, analysis_date := no_value }

/-- The per-header matching step of `import_otu_tables_main` (lines 581-590):
a sample whose folder equals the header is re-assigned results from this
file unless its current count is strictly above 3000. -/
def header_match_step (header file_name : String) (otus_slice : Slice)
    (s : Sample) : Sample :=
  if header = s.folder then
    (if s.count > 3000 then s else assign_results s otus_slice (some file_name))
  else s

/-- Index of the last occurrence of a character, Python `str.rfind` (which
returns -1, i.e. `none` here, when absent). -/
def lastIdxOf (l : List Char) (ch : Char) : Option Nat :=
  match l with
  | [] => none
  | a :: rest =>
    match lastIdxOf rest ch with
    | some i => some (i + 1)
    | none => if a = ch then some 0 else none

/-- `Diatom_Sample.sort_control` (lines 194-215): for a sample in the
"Control" region, strip the folder at the last "S", rebuild the sample id as
`<folder>_<batch_num>`, classify the region from the first letter of the
stripped folder (Unknowns resets the sample id to the "F"-prefixed form)
and upper-case the folder. Indexing `folder.lower()[0]` raises IndexError
when the stripped folder is empty. -/
def sort_control (s : Sample) : Except PyErr Sample :=
  if s.region = "Control" then
    let folder1 : String :=
      match lastIdxOf s.folder.toList 'S' with
      | none => s.folder
      | some i => ⟨s.folder.toList.take i⟩
    let sampleid1 := folder1 ++ "_" ++ s.batch_num
    match (folder1.toList.map Char.toLower).head? with
    | none => .error .indexError
    | some c =>
      let rs : String × String :=
        if c = 'b' then ("Blanks", sampleid1)
        else if c = 'n' then ("NTCs", sampleid1)
        else if c = 'p' then ("Positives", sampleid1)
        else if c = 'g' then ("Gblocks", sampleid1)
        else if c = 't' then ("TR", sampleid1)
        else ("Unknowns", "F" ++ folder1)
      .ok { s with folder := ⟨folder1.toList.map Char.toUpper⟩,
                   sampleid := rs.2, region := rs.1 }
  else .ok s

/-- `get_surrounding_coords` (lines 497-516): the Moore neighborhood of a
plate position, clipped at rows 0 and 7 and at columns 1 and 12, in
row-major order and including the cell itself. -/
def get_surrounding_coords (row col : Int) : List (Int × Int) :=
  let surround_rows :=
    if row = 0 then [row, row + 1]
    else if row = 7 then [row - 1, row]
    else [row - 1, row, row + 1]
  let surround_cols :=
    if col = 1 then [col, col + 1]
    else if col = 12 then [col - 1, col]
    else [col - 1, col, col + 1]
  surround_rows.foldr (fun r acc => (surround_cols.map (fun c => (r, c))) ++ acc) []

/-- The metadata-born sample of the C2 scenario before any results arrive. -/
def c2_sample0 : Sample :=
  { dummySample with
    folder := "77", sampleid := "S77", siteid := "100",
    region := "Midlands", count := 0, pass_fail := "Unsuccessful",
    sim_sample := no_value }

/-- The sample after its first abundance file: the "77" column sums to
exactly 3000. -/
def c2_s1 : Sample :=
  assign_results c2_sample0 ⟨"77", [("OTU_A", 3000)]⟩ (some "Run_1.tsv")

/-- The same sample after a second abundance file also carries a "77" header
whose column sums to 2999: the guard `sample.count > 3000` of
`import_otu_tables_main` is false at exactly 3000, so `assign_results` runs
again. -/
def c2_s2 : Sample :=
  header_match_step "77" "Run_2.tsv" ⟨"77", [("OTU_A", 2999)]⟩ c2_s1

/-- The concrete blank-control sample of the C8 witness. -/
def c8_s : Sample :=
  { dummySample with region := "Control", folder := "B12S3", batch_num := "3" }

/-- The concrete unknown-control sample of the C8 witness. -/
def c8_t : Sample :=
  { dummySample with region := "Control", folder := "X7", batch_num := "3" }

/-- The four species counts of the BUB loop: `a` present in both samples,
`b` only in sample 0, `c` only in sample 1, `d` absent in both. -/
structure BubCounts where
  a : Nat
  b : Nat
  c : Nat
  d : Nat
deriving DecidableEq

/-- One iteration of the binarize-and-compare loop of
`baroni_urbani_buser_coefficient` (lines 399-419): counts above 1 are capped
to 1, then the two binary values are compared. The trailing `else:
MathsError` branch of the source is unreachable (and is a bare expression
that raises nothing). -/
def bub_step (t : BubCounts) (p : Nat × Nat) : BubCounts :=
  let count_0 := if p.1 > 1 then 1 else p.1
  let count_1 := if p.2 > 1 then 1 else p.2
  if count_0 = count_1 then
    (if count_0 = 1 then { t with a := t.a + 1 } else { t with d := t.d + 1 })
  else if count_0 > count_1 then { t with b := t.b + 1 }
  else { t with c := t.c + 1 }

/-- The a/b/c/d totals over all rows of the merged two-column count table. -/
def bubCounts (rows : List (Nat × Nat)) : BubCounts :=
  rows.foldl bub_step ⟨0, 0, 0, 0⟩

/-- The float denominator `sqrt(a*d) + a + b + c` of line 421. -/
noncomputable def bubDenom (t : BubCounts) : ℝ :=
  Real.sqrt ((t.a : ℝ) * (t.d : ℝ)) + t.a + t.b + t.c

/-- `baroni_urbani_buser_coefficient` (lines 393-422) applied to a merged
table (`PrefTaxon`, count of sample 0, count of sample 1): the taxon column
is dropped, the counts are accumulated, and the coefficient
`(sqrt(a*d) + a) / (sqrt(a*d) + a + b + c)` is computed — an uncaught
ZeroDivisionError when the denominator is zero, since the source has no
guard. -/
noncomputable def baroni_urbani_buser_coefficient
    (df : List (String × Nat × Nat)) : Except PyErr ℝ :=
  let t := bubCounts (df.map (fun r => (r.2.1, r.2.2)))
  if bubDenom t = 0 then .error .zeroDivision
  else .ok ((Real.sqrt ((t.a : ℝ) * (t.d : ℝ)) + t.a) / bubDenom t)

/-- Row predicate: the taxon is present (count at least 1) in both columns. -/
def presA (p : Nat × Nat) : Bool := decide (1 ≤ p.1 ∧ 1 ≤ p.2)

/-- Row predicate: present only in column 0. -/
def presB (p : Nat × Nat) : Bool := decide (1 ≤ p.1 ∧ p.2 = 0)

/-- Row predicate: present only in column 1. -/
def presC (p : Nat × Nat) : Bool := decide (p.1 = 0 ∧ 1 ≤ p.2)

/-- Row predicate: absent from both columns. -/
def presD (p : Nat × Nat) : Bool := decide (p.1 = 0 ∧ p.2 = 0)

/-- Inner join of two two-column slices on `PrefTaxon` (`pd.merge` of line
460): for each left row, every right row with the same taxon id, in left
order, giving (taxon, center count, candidate count) rows. -/
def pd_merge_slices (a b : Slice) : List (String × Nat × Nat) :=
  a.rows.foldr
    (fun r acc =>
      ((b.rows.filter (fun q => q.1 = r.1)).map (fun q => (r.1, r.2, q.2))) ++ acc)
    []

/-- State of the similarity loops: the global coefficient list `sim_all`, the
center's `highest_sim` and its `most_sim_sample`. -/
abbrev SimState := List ℝ × ℝ × String

/-- One candidate iteration of the inner loop of `perform_similarity_checks`
(lines 446-474) for center index `i` and candidate `(j, sur)`. Skips: the
center itself (object identity), unsuccessful candidates, a missing `plate`
or `sur_samples` attribute on either side (the AttributeError is caught by
line 473), differing plates, and a candidate without a table. A candidate at
a neighboring plate location is scored and may update the best match; any
other same-plate candidate is scored into `sim_all` only. A ZeroDivisionError
out of the coefficient (or a TypeError merging a center without a table)
propagates uncaught. -/
noncomputable def candidate_step (cent : Sample) (i j : Nat) (sur : Sample)
    (st : SimState) : Except PyErr SimState :=
  if i = j then .ok st
  else if sur.pass_fail ≠ "Successful" then .ok st
  else
    match cent.plate with
    | none => .ok st
    | some cp =>
      match sur.plate with
      | none => .ok st
      | some sp =>
        if cp ≠ sp then .ok st
        else
          match cent.sur_samples with
          | none => .ok st
          | some neigh =>
            if (match sur.plate_loc with
                | some loc => decide (loc ∈ neigh)
                | none => false) then
              match sur.otu_tab with
              | none => .ok st
              | some sdf =>
                match cent.otu_tab with
                | none => .error .typeError
                | some cdf =>
                  match baroni_urbani_buser_coefficient (pd_merge_slices cdf sdf) with
                  | .error e => .error e
                  | .ok v =>
                    if v > st.2.1 then .ok (st.1 ++ [v], v, sur.folder)
                    else .ok (st.1 ++ [v], st.2.1, st.2.2)
            else
              match sur.otu_tab with
              | none => .ok st
              | some sdf =>
                match cent.otu_tab with
                | none => .error .typeError
                | some cdf =>
                  match baroni_urbani_buser_coefficient (pd_merge_slices cdf sdf) with
                  | .error e => .error e
                  | .ok v => .ok (st.1 ++ [v], st.2.1, st.2.2)

/-- The inner loop over all candidate samples, `j` counting positions. -/
noncomputable def inner_loop (cent : Sample) (i : Nat) :
    List Sample → Nat → SimState → Except PyErr SimState
  | [], _, st => .ok st
  | sur :: rest, j, st =>
    match candidate_step cent i j sur st with
    | .error e => .error e
    | .ok st' => inner_loop cent i rest (j + 1) st'

/-- One center sample (lines 441-475): an unsuccessful center is skipped by
the `continue` and never assigned; a successful one runs the inner loop from
`highest_sim = 0.0`, `most_sim_sample = ""` and is then always assigned its
best match by `assign_most_sim_sample`. Returns the updated sample together
with the coefficients this center appended to `sim_all`. -/
noncomputable def center_step (all : List Sample) (i : Nat) (cent : Sample) :
    Except PyErr (Sample × List ℝ) :=
  if cent.pass_fail ≠ "Successful" then .ok (cent, [])
  else
    match inner_loop cent i all 0 ([], 0, "") with
    | .error e => .error e
    | .ok (scs, highest, mss) =>
      .ok ({ cent with sim := highest, sim_sample := mss }, scs)

/-- The outer loop over center samples. `sim_all` is a global accumulator in
the source; every center appends one contiguous block, so the pass
concatenates the per-center blocks in the source's append order. Candidates
are read from the original list: the only fields the outer loop mutates
(`sim`, `sim_sample`) are never read by the inner loop, so this equals the
source's in-place mutation. -/
noncomputable def outer_loop (all : List Sample) :
    List Sample → Nat → Except PyErr (List Sample × List ℝ)
  | [], _ => .ok ([], [])
  | cent :: rest, i =>
    match center_step all i cent with
    | .error e => .error e
    | .ok (cent', scs) =>
      match outer_loop all rest (i + 1) with
      | .error e => .error e
      | .ok (rest', scsr) => .ok (cent' :: rest', scs ++ scsr)

/-- The full assignment pass of `perform_similarity_checks` (lines 432-475). -/
noncomputable def sim_pass (all : List Sample) :
    Except PyErr (List Sample × List ℝ) :=
  outer_loop all all 0

/-- Python `statistics.mean`: StatisticsError on an empty data list. -/
noncomputable def pyMean (l : List ℝ) : Except PyErr ℝ :=
  match l with
  | [] => .error .statisticsError
  | _ => .ok (l.sum / l.length)

/-- Python `statistics.stdev` (sample standard deviation): StatisticsError
on fewer than two data points. -/
noncomputable def pyStdev (l : List ℝ) : Except PyErr ℝ :=
  if l.length < 2 then .error .statisticsError
  else
    .ok (Real.sqrt
      (((l.map (fun x => (x - l.sum / l.length) ^ 2)).sum) / ((l.length : ℝ) - 1)))

/-- One row of the exported BUB_coefficient sheet (lines 477-495): folder,
best match, coefficient and plate (a blank for the AttributeError case). -/
structure SimRow where
  folderNumber : String
  mostSimilar : String
  bubCo : ℝ
  plateName : String

/-- `perform_similarity_checks` (lines 430-495): the assignment pass, the
per-sample output rows, then `stat.mean` and `stat.stdev` of `sim_all` —
both of which raise (lines 491-492) before the sheet is written when fewer
than two coefficients were computed. -/
noncomputable def perform_similarity_checks (all : List Sample) :
    Except PyErr (List Sample × List SimRow × ℝ × ℝ) :=
  match sim_pass all with
  | .error e => .error e
  | .ok (updated, sims) =>
    let rows := updated.map (fun s =>
      { folderNumber := s.folder, mostSimilar := s.sim_sample, bubCo := s.sim,
        plateName := s.plate.getD " " : SimRow })
    match pyMean sims with
    | .error e => .error e
    | .ok mv =>
      match pyStdev sims with
      | .error e => .error e
      | .ok sdv => .ok (updated, rows, mv, sdv)

/-- The successful, plate-less sample of the C10 witness; its stale `sim`
fields get overwritten by the pass. -/
def c10_successful : Sample :=
  { dummySample with
    folder := "C1", pass_fail := "Successful", sim := 7, sim_sample := "stale",
    otu_tab := some ⟨"C1", [("OTU_1", 3500)]⟩, count := 3500 }

/-- The unsuccessful sample of the C10 witness, with its constructor-initial
similarity fields. -/
def c10_failed : Sample :=
  { dummySample with
    folder := "C2", pass_fail := "Unsuccessful", sim := 0, sim_sample := no_value }

/-- The expected registry after the C10 witness pass. -/
def c10_updated : List Sample :=
  [{ c10_successful with sim := 0, sim_sample := "" }, c10_failed]

/-- The unsuccessful lone sample of the C3 witness. -/
def c3_failed_sample : Sample :=
  { dummySample with folder := "F1", pass_fail := "Unsuccessful" }

/-- A wide abundance table: sample column headers (`PrefTaxon` excluded) and
rows of (taxon id, counts aligned with the headers). -/
structure DF where
  headers : List String
  rows : List (String × List Nat)
deriving DecidableEq

/-- A two-column slice viewed as a one-sample-column wide table. -/
def sliceDF (sl : Slice) : DF :=
  ⟨[sl.header], sl.rows.map (fun r => (r.1, [r.2]))⟩

/-- pandas inner join of a wide table with a two-column slice on
`PrefTaxon`: left rows in order, matched against every right row with the
same taxon id, the slice's count column appended. -/
def mergeDF (a : DF) (b : Slice) : DF :=
  ⟨a.headers ++ [b.header],
   a.rows.foldr
     (fun r acc =>
       ((b.rows.filter (fun q => q.1 = r.1)).map (fun q => (r.1, r.2 ++ [q.2]))) ++ acc)
     []⟩

/-- `pat` is a prefix of the second list. -/
def startsWithList : List Char → List Char → Bool
  | [], _ => true
  | _ :: _, [] => false
  | p :: ps, c :: cs => if p = c then startsWithList ps cs else false

/-- `pat` occurs as a contiguous substring (`str.contains` of pandas). -/
def containsSub (pat : List Char) : List Char → Bool
  | [] => startsWithList pat []
  | c :: cs => if startsWithList pat (c :: cs) then true else containsSub pat cs

/-- `format_df` (lines 279-283): rows whose taxon label contains "batch_num"
are removed, the taxon column becomes the index (a no-op in this
representation) and rows whose counts are all zero are dropped. -/
def format_df (df : DF) : DF :=
  ⟨df.headers,
   (df.rows.filter (fun r => ¬ containsSub "batch_num".toList r.1.toList)).filter
     (fun r => r.2.any (fun n => n ≠ 0))⟩

/-- The exception-driven `main_df` accumulation shared by the export
functions: outer `none` is the unbound state (first iteration, the caught
NameError binds `main_df` to the sample's raw `otu_tab`, which may itself be
Python `None`); merging once `main_df` or the incoming table is `None`
raises TypeError out of pandas, uncaught. -/
def merge_acc (acc : Option (Option DF)) (tab : Option Slice) :
    Except PyErr (Option (Option DF)) :=
  match acc with
  | none => .ok (some (tab.map sliceDF))
  | some none => .error .typeError
  | some (some m) =>
    match tab with
    | none => .error .typeError
    | some sl => .ok (some (some (mergeDF m sl)))

/-- The merge loop of the control-region branch of `filter_otus_by_region`
(lines 324-331). -/
def region_ctrl_loop (region : String) : List Sample → Option (Option DF) →
    Except PyErr (Option (Option DF))
  | [], acc => .ok acc
  | s :: rest, acc =>
    if s.region = region ∧ s.count ≥ 3000 then
      match merge_acc acc s.otu_tab with
      | .error e => .error e
      | .ok acc' => region_ctrl_loop region rest acc'
    else region_ctrl_loop region rest acc

/-- The merge loop of the regular-region branch (lines 338-347), which also
collects the `biosys_siteid_dict` entries (folder, siteid, sampleid). -/
def region_reg_loop (region : String) : List Sample →
    (List (String × String × String) × Option (Option DF)) →
    Except PyErr (List (String × String × String) × Option (Option DF))
  | [], st => .ok st
  | s :: rest, (dict, acc) =>
    if s.region = region ∧ s.count ≥ 3000 then
      match merge_acc acc s.otu_tab with
      | .error e => .error e
      | .ok acc' =>
        region_reg_loop region rest
          (dict ++ [(s.folder, s.siteid, s.sampleid)], acc')
    else region_reg_loop region rest (dict, acc)

/-- Python slice `s[a:b]`, clamped like the source's `folder[2:8]`. -/
def pySliceStr (s : String) (a b : Nat) : String :=
  ⟨(s.toList.drop a).take (b - a)⟩

/-- The inner loop of the TR branch (lines 311-316): merge the original
(non-TR) sample's table for every registry entry whose folder matches the
recovered original folder number. -/
def tr_inner_loop (ofn region : String) : List Sample → Option (Option DF) →
    Except PyErr (Option (Option DF))
  | [], acc => .ok acc
  | og :: rest, acc =>
    if og.folder = ofn ∧ og.region ≠ region ∧ og.count > 1 then
      match merge_acc acc og.otu_tab with
      | .error e => .error e
      | .ok acc' => tr_inner_loop ofn region rest acc'
    else tr_inner_loop ofn region rest acc

/-- The outer loop of the TR branch (lines 297-316). `folder[2]` raises
IndexError on a short folder; the `else` arm of line 305 assigns the
misspelt `sample_orignal_fn`, so `sample_original_fn` keeps its previous
binding — and if it was never bound, the comparison on line 312 raises
UnboundLocalError as soon as the inner loop runs. -/
def tr_outer_loop (samples : List Sample) (region : String) : List Sample →
    (Option String × Option (Option DF)) →
    Except PyErr (Option String × Option (Option DF))
  | [], st => .ok st
  | str :: rest, (ofn, acc) =>
    if str.region = "TR" ∧ str.count ≥ 3000 then
      match str.folder.toList.get? 2 with
      | none => .error .indexError
      | some ch =>
        let ofn' : Option String :=
          if ch = '3' then some (pySliceStr str.folder 2 8)
          else if ch = '4' then some (pySliceStr str.folder 2 9)
          else ofn
        match merge_acc acc str.otu_tab with
        | .error e => .error e
        | .ok acc' =>
          match ofn' with
          | none =>
            (match samples with
             | [] => tr_outer_loop samples region rest (none, acc')
             | _ :: _ => .error .unboundLocal)
          | some f =>
            match tr_inner_loop f region samples acc' with
            | .error e => .error e
            | .ok acc'' => tr_outer_loop samples region rest (some f, acc'')
    else tr_outer_loop samples region rest (ofn, acc)

/-- Result of one region export: `noneQualifying` = the UnboundLocalError of
the empty merge was caught and only the "had no passing samples" diagnostic
was printed; otherwise the sheet that would be written, with or without the
siteid/sampleid header rows of `add_biosys_headers`. -/
inductive RegionOut where
  | noneQualifying
  | sheetPlain (df : DF)
  | sheetWithIds (ids : List (String × String × String)) (df : DF)

/-- The `control_regions` list (line 47). -/
def control_regions : List String :=
  ["Blanks", "Positives", "Gblocks", "NTCs", "Unknowns", "TR"]

/-- `filter_otus_by_region` (lines 285-353). The `no_value` branch reads the
undefined global `metadata_list` (line 291): an uncaught NameError. Every
other branch guards `format_df` and the write with `except
UnboundLocalError`, so an empty merge yields the diagnostic and no sheet;
a merge that was bound to a `None` table dies in `format_df` with an
uncaught AttributeError. -/
def filter_otus_by_region (region : String) (samples : List Sample)
    (ctrl : List String) : Except PyErr RegionOut :=
  if region = no_value then .error .nameError
  else if region = "TR" then
    match tr_outer_loop samples region samples (none, none) with
    | .error e => .error e
    | .ok (_, none) => .ok .noneQualifying
    | .ok (_, some none) => .error .attributeError
    | .ok (_, some (some df)) => .ok (.sheetWithIds [] (format_df df))
  else if region ∈ ctrl then
    match region_ctrl_loop region samples none with
    | .error e => .error e
    | .ok none => .ok .noneQualifying
    | .ok (some none) => .error .attributeError
    | .ok (some (some df)) => .ok (.sheetPlain (format_df df))
  else
    match region_reg_loop region samples ([], none) with
    | .error e => .error e
    | .ok (_, none) => .ok .noneQualifying
    | .ok (_, some none) => .error .attributeError
    | .ok (dict, some (some df)) => .ok (.sheetWithIds dict (format_df df))

/-- The region list substituted when `keep_list[0] == "all"` (lines 242-249). -/
def community_keep_all : List String :=
  ["Anglian", "Midlands", "South West", "Southern", "North West", "North East",
   "Thames", "Unknowns", "Blanks", "Positives", "Gblocks", "NTCs", "TR",
   "Aberdeen", "Perth", "Eurocentrl", "Dingwall", "Dumfries", "Galashiels",
   "Bowlblank"]

/-- The merge loop of `community_analysis_export` (lines 251-266): samples
with any reads whose region is kept are merged; control samples first have
their count column renamed to the sample id (an AttributeError on a sample
without a table, since `None.columns` is assigned before any merge). -/
def community_loop (keep ctrl : List String) : List Sample →
    Option (Option DF) → Except PyErr (Option (Option DF))
  | [], acc => .ok acc
  | s :: rest, acc =>
    if s.count ≥ 1 ∧ s.region ∈ keep then
      (if s.region ∈ ctrl then
        match s.otu_tab with
        | none => .error .attributeError
        | some t =>
          match merge_acc acc (some { t with header := s.sampleid }) with
          | .error e => .error e
          | .ok acc' => community_loop keep ctrl rest acc'
      else
        match merge_acc acc s.otu_tab with
        | .error e => .error e
        | .ok acc' => community_loop keep ctrl rest acc')
    else community_loop keep ctrl rest acc

/-- `community_analysis_export` (lines 239-270): `keep_list[0]` raises
IndexError on an empty keep list; and NOTHING catches the UnboundLocalError
of `format_df(main_df)` on line 267 when no sample qualified, so the empty
case raises instead of exporting an empty result. The transpose and Excel
write that follow are I/O boundary. -/
def community_analysis_export (samples : List Sample) (keep ctrl : List String) :
    Except PyErr DF :=
  match keep with
  | [] => .error .indexError
  | k0 :: _ =>
    let keep2 := if k0 = "all" then community_keep_all else keep
    match community_loop keep2 ctrl samples none with
    | .error e => .error e
    | .ok none => .error .unboundLocal
    | .ok (some none) => .error .attributeError
    | .ok (some (some df)) => .ok (format_df df)

/-- The single non-qualifying sample of the C5 witness: a region outside
every keep list, well above the read threshold. -/
def c5_sample : Sample :=
  { dummySample with
    folder := "88", region := "Wales", count := 5000, pass_fail := "Successful",
    otu_tab := some ⟨"88", [("OTU_1", 5000)]⟩ }

lemma digitChar_isDigit : ∀ r, r < 10 → (Nat.digitChar r).isDigit = true := by decide

lemma digitChar_toNat : ∀ r, r < 10 → (Nat.digitChar r).toNat - 48 = r := by decide

lemma natDigits_all_digits (n : Nat) : ∀ c ∈ natDigits n, c.isDigit = true := by
  induction n using Nat.strong_induction_on with
  | _ n ih =>
    rw [natDigits]
    split
    · intro c hc
      rw [List.mem_singleton] at hc
      subst hc
      exact digitChar_isDigit n (by assumption)
    · intro c hc
      rcases List.mem_append.mp hc with h | h
      · exact ih (n / 10) (Nat.div_lt_self (by omega) (by omega)) c h
      · rw [List.mem_singleton] at h
        subst h
        exact digitChar_isDigit _ (Nat.mod_lt _ (by omega))

lemma natDigits_ne_nil (n : Nat) : natDigits n ≠ [] := by
  rw [natDigits]
  split
  · simp
  · simp

lemma digitsVal_append (l : List Char) (c : Char) :
    digitsVal (l ++ [c]) = digitsVal l * 10 + (c.toNat - 48) := by
  simp [digitsVal, List.foldl_append]

lemma digitsVal_natDigits (n : Nat) : digitsVal (natDigits n) = n := by
  induction n using Nat.strong_induction_on with
  | _ n ih =>
    rw [natDigits]
    split
    · simp [digitsVal]
      exact digitChar_toNat n (by assumption)
    · rw [digitsVal_append, ih (n / 10) (Nat.div_lt_self (by omega) (by omega)),
        digitChar_toNat (n % 10) (Nat.mod_lt _ (by omega))]
      omega

lemma isDigit_ne {c : Char} (h : c.isDigit = true) :
    c ≠ '-' ∧ c ≠ '+' ∧ c ≠ ' ' ∧ c ≠ '.' := by
  refine ⟨?_, ?_, ?_, ?_⟩ <;> rintro rfl <;> exact absurd h (by decide)

lemma dropWhile_eq_self {p : Char → Bool} {l : List Char}
    (h : ∀ c ∈ l, p c = false) : l.dropWhile p = l := by
  cases l with
  | nil => rfl
  | cons a t => simp [List.dropWhile, h a (List.mem_cons_self a t)]

lemma trimSpaces_eq_self {l : List Char} (h : ∀ c ∈ l, c ≠ ' ') : trimSpaces l = l := by
  unfold trimSpaces
  have h1 : l.dropWhile (fun c => c = ' ') = l :=
    dropWhile_eq_self (fun c hc => by simp [h c hc])
  rw [h1]
  have h2 : l.reverse.dropWhile (fun c => c = ' ') = l.reverse :=
    dropWhile_eq_self (fun c hc => by simp [h c (List.mem_reverse.mp hc)])
  rw [h2, List.reverse_reverse]

lemma toList_mk (l : List Char) : (⟨l⟩ : String).toList = l := rfl

lemma strOfInt_chars (n : Int) :
    ∀ c ∈ (strOfInt n).toList, c.isDigit = true ∨ c = '-' := by
  unfold strOfInt
  split
  · intro c hc
    rw [toList_mk] at hc
    rcases List.mem_cons.mp hc with h | h
    · right; exact h
    · left; exact natDigits_all_digits _ c h
  · intro c hc
    rw [toList_mk] at hc
    left; exact natDigits_all_digits _ c hc

lemma pyInt_strOfInt (n : Int) : pyInt (strOfInt n) = some n := by
  have htrim : trimSpaces (strOfInt n).toList = (strOfInt n).toList := by
    refine trimSpaces_eq_self (fun c hc => ?_)
    rcases strOfInt_chars n c hc with h | h
    · exact (isDigit_ne h).2.2.1
    · subst h; decide
  unfold pyInt
  rw [htrim]
  unfold strOfInt
  by_cases hn : n < 0
  · rw [if_pos hn, toList_mk]
    unfold pyIntCore
    rw [if_neg (by simp), if_pos (by simp)]
    rw [if_neg (by simpa using natDigits_ne_nil n.natAbs)]
    rw [if_pos (by simpa [allDigits, List.all_eq_true] using natDigits_all_digits n.natAbs)]
    simp only [List.tail_cons]
    rw [digitsVal_natDigits]
    congr 1
    omega
  · rw [if_neg hn, toList_mk]
    have hne := natDigits_ne_nil n.natAbs
    have hall := natDigits_all_digits n.natAbs
    rcases hl : natDigits n.natAbs with _ | ⟨c, rest⟩
    · exact absurd hl hne
    · have hcdig : c.isDigit = true := by
        refine hall c ?_
        rw [hl]; exact List.mem_cons_self c rest
      unfold pyIntCore
      rw [if_neg (by simp)]
      rw [if_neg (by simpa using (isDigit_ne hcdig).1)]
      rw [if_neg (by simpa using (isDigit_ne hcdig).2.1)]
      rw [if_pos (by rw [← hl]; simpa [allDigits, List.all_eq_true] using hall)]
      rw [← hl, digitsVal_natDigits]
      congr 1
      omega

lemma removeDots_strOfInt (n : Int) : removeDots (strOfInt n) = strOfInt n := by
  unfold removeDots
  have h : (strOfInt n).toList.filter (fun c => c ≠ '.') = (strOfInt n).toList := by
    rw [List.filter_eq_self]
    intro c hc
    rcases strOfInt_chars n c hc with h | h
    · simpa using (isDigit_ne h).2.2.2
    · subst h; decide
  rw [h]
  cases hs : strOfInt n
  rfl

/-- C7: the identifier canonicalization rules of the `Diatom_Sample`
constructor are idempotent: re-normalizing an already-normalized folder or
sample id returns it unchanged, and a site id that canonicalized successfully
re-canonicalizes to itself. -/
theorem c7_normalizer_idempotent :
    (∀ x : String, normFolder (normFolder x) = normFolder x) ∧
    (∀ x : String, normSampleId (normSampleId x) = normSampleId x) ∧
    (∀ x y : String, normSiteId x = .ok y → normSiteId y = .ok y) := by
  refine ⟨fun x => ?_, fun x => ?_, fun x y hxy => ?_⟩
  · unfold normFolder
    rcases h : pyInt x with _ | n
    · rw [h]
    · rw [pyInt_strOfInt]
  · unfold normSampleId
    rcases h : pyInt (removeDots x) with _ | n
    · rw [h]
    · rw [removeDots_strOfInt, pyInt_strOfInt]
  · unfold normSiteId at hxy ⊢
    rcases h : pyInt (removeDots x) with _ | n
    · rw [h] at hxy; exact absurd hxy (by simp)
    · rw [h] at hxy
      have hy : y = strOfInt n := by
        have := hxy
        simp at this
        exact this.symm
      subst hy
      rw [removeDots_strOfInt, pyInt_strOfInt]

lemma strOfInt_show : strOfInt 125 = "125" := by
  have h5 : natDigits 125 = natDigits 12 ++ ['5'] := by
    rw [natDigits]; norm_num; decide
  have h2 : natDigits 12 = natDigits 1 ++ ['2'] := by
    rw [natDigits]; norm_num; decide
  have h1 : natDigits 1 = ['1'] := by
    rw [natDigits]; norm_num; decide
  rw [strOfInt, if_neg (by norm_num)]
  show ({ data := natDigits 125 } : String) = "125"
  rw [h5, h2, h1]
  rfl

/-- Witness for C7 at a concrete input: "012.5" canonicalizes to "125" and
"125" is a fixed point of the site-id rule. -/
theorem c7_normalizer_idempotent_witness : normSiteId "125" = .ok "125" :=
  c7_normalizer_idempotent.2.2 "012.5" "125" (by
    rw [normSiteId, show pyInt (removeDots "012.5") = some 125 from rfl]
    show Except.ok (strOfInt 125) = Except.ok "125"
    rw [strOfInt_show])

/-- C4 counterexample: a site id that does not parse as an integer makes the
constructor raise ValueError instead of keeping the trimmed string. -/
theorem c4_siteid_counterexample :
    Diatom_Sample_init (some "77") (some "ABC") none (some "Control") none none
      none none (some "12") = .error .valueError := rfl

/-- C4 (amended): for every non-empty raw site id that does not parse as an
integer after decimal separators are removed, constructing a `Diatom_Sample`
FAILS with ValueError (the site-id branch has no handler); an absent site id
yields the `no_value` sentinel. -/
theorem c4_siteid_amended (x : String) (hx : x ≠ "")
    (hp : pyInt (removeDots x) = none) :
    (∀ sampleid area region prn sn sd bc folder,
      Diatom_Sample_init sampleid (some x) area region prn sn sd bc folder =
        .error .valueError) ∧
    (∀ sampleid area region prn sn sd bc folder,
      ∃ s, Diatom_Sample_init sampleid none area region prn sn sd bc folder =
        .ok s ∧ s.siteid = no_value) := by
  constructor
  · intro sampleid area region prn sn sd bc folder
    simp only [Diatom_Sample_init]
    have ht : truthy (some x) = true := by simp [truthy, hx]
    rw [ht, if_pos rfl]
    simp only [Option.getD_some]
    rw [normSiteId, hp]
  · intro sampleid area region prn sn sd bc folder
    exact ⟨_, rfl, rfl⟩

/-- Witness for C4 at concrete inputs: site id "site A" raises, absent site
id yields the sentinel. -/
theorem c4_siteid_witness :
    Diatom_Sample_init (some "1") (some "site A") none none none none none none
      (some "9") = .error .valueError ∧
    ∃ s, Diatom_Sample_init (some "1") none none none none none none none
      (some "9") = .ok s ∧ s.siteid = no_value := by
  have h := c4_siteid_amended "site A" (by decide) (by rfl)
  exact ⟨h.1 (some "1") none none none none none none (some "9"),
         h.2 (some "1") none none none none none none (some "9")⟩

/-- C2: the claimed invariant `pass_fail = "Successful" ↔ count ≥ 3000` is
broken by a second `assign_results` call: after the first file the sample is
Successful with count 3000, after the second its count drops to 2999 while
`pass_fail` stays "Successful" (assign_results never resets it downward). -/
theorem c2_pass_fail_stale_after_reassign :
    c2_s1.count = 3000 ∧ c2_s1.pass_fail = "Successful" ∧
    c2_s2.count = 2999 ∧ c2_s2.pass_fail = "Successful" ∧
    ¬(c2_s2.count ≥ 3000) := by
  refine ⟨rfl, rfl, rfl, rfl, by decide⟩

/-- C8: the two reference cases of `sort_control`. -/
theorem c8_sort_control_cases (b : String) (s t : Sample)
    (hs1 : s.region = "Control") (hs2 : s.folder = "B12S3") (hs3 : s.batch_num = b)
    (ht1 : t.region = "Control") (ht2 : t.folder = "X7") :
    sort_control s =
      .ok { s with folder := "B12", region := "Blanks", sampleid := "B12_" ++ b } ∧
    sort_control t =
      .ok { t with folder := "X7", region := "Unknowns", sampleid := "FX7" } := by
  constructor
  · unfold sort_control
    rw [if_pos hs1, hs2, hs3]
    rfl
  · unfold sort_control
    rw [if_pos ht1, ht2]
    rfl

/-- Witness for C8 on the two concrete control samples. -/
theorem c8_sort_control_witness :
    sort_control c8_s =
      .ok { c8_s with folder := "B12", region := "Blanks", sampleid := "B12_3" } ∧
    sort_control c8_t =
      .ok { c8_t with folder := "X7", region := "Unknowns", sampleid := "FX7" } := by
  have h := c8_sort_control_cases "3" c8_s c8_t rfl rfl rfl rfl rfl
  exact ⟨h.1, h.2⟩

lemma mem_prodList {rs cs : List Int} {r c : Int} :
    (r, c) ∈ rs.foldr (fun x acc => (cs.map (fun y => (x, y))) ++ acc) [] ↔
      r ∈ rs ∧ c ∈ cs := by
  induction rs with
  | nil => simp
  | cons a t ih =>
    simp only [List.foldr_cons, List.mem_append, ih, List.mem_map, List.mem_cons,
      Prod.mk.injEq]
    constructor
    · rintro (⟨y, hy, rfl, rfl⟩ | ⟨h1, h2⟩)
      · exact ⟨Or.inl rfl, hy⟩
      · exact ⟨Or.inr h1, h2⟩
    · rintro ⟨h1 | h1, h2⟩
      · exact Or.inl ⟨c, h2, h1.symm, rfl⟩
      · exact Or.inr ⟨h1, h2⟩

/-- C9: on the 8-row, 12-column plate, `get_surrounding_coords` returns
exactly the Moore neighborhood of the cell (itself included) clipped to the
plate, with no wrap-around; position (0,1) yields exactly the 4 in-plate
cells (none with row -1 or column 0) and (3,6) yields all 9. -/
theorem c9_surrounding_coords (row col : Int)
    (hr0 : 0 ≤ row) (hr7 : row ≤ 7) (hc1 : 1 ≤ col) (hc12 : col ≤ 12) :
    (∀ r c : Int, (r, c) ∈ get_surrounding_coords row col ↔
      (0 ≤ r ∧ r ≤ 7 ∧ 1 ≤ c ∧ c ≤ 12 ∧
       -1 ≤ r - row ∧ r - row ≤ 1 ∧ -1 ≤ c - col ∧ c - col ≤ 1)) ∧
    get_surrounding_coords 0 1 = [(0, 1), (0, 2), (1, 1), (1, 2)] ∧
    (get_surrounding_coords 0 1).length = 4 ∧
    (∀ p ∈ get_surrounding_coords 0 1, p.1 ≠ -1 ∧ p.2 ≠ 0) ∧
    (get_surrounding_coords 3 6).length = 9 ∧
    (3, 6) ∈ get_surrounding_coords 3 6 := by
  refine ⟨fun r c => ?_, by decide, by decide, by decide, by decide, by decide⟩
  unfold get_surrounding_coords
  rw [mem_prodList]
  have hrows : r ∈ (if row = 0 then [row, row + 1] else if row = 7 then
      [row - 1, row] else [row - 1, row, row + 1]) ↔
      (0 ≤ r ∧ r ≤ 7 ∧ -1 ≤ r - row ∧ r - row ≤ 1) := by
    split_ifs with ha hb <;> simp [List.mem_cons] <;> omega
  have hcols : c ∈ (if col = 1 then [col, col + 1] else if col = 12 then
      [col - 1, col] else [col - 1, col, col + 1]) ↔
      (1 ≤ c ∧ c ≤ 12 ∧ -1 ≤ c - col ∧ c - col ≤ 1) := by
    split_ifs with ha hb <;> simp [List.mem_cons] <;> omega
  rw [hrows, hcols]
  tauto

/-- Witness for C9: the clipped corner (0,1) contains the cell (0,2). -/
theorem c9_surrounding_coords_witness : (0, 2) ∈ get_surrounding_coords 0 1 :=
  ((c9_surrounding_coords 0 1 (by decide) (by decide) (by decide) (by decide)).1
    0 2).mpr (by decide)

lemma bub_step_eq (t : BubCounts) (p : Nat × Nat) :
    bub_step t p =
      if 1 ≤ p.1 ∧ 1 ≤ p.2 then { t with a := t.a + 1 }
      else if 1 ≤ p.1 then { t with b := t.b + 1 }
      else if 1 ≤ p.2 then { t with c := t.c + 1 }
      else { t with d := t.d + 1 } := by
  rcases p with ⟨x, y⟩
  unfold bub_step
  dsimp only
  split_ifs <;> first | rfl | (exfalso; omega)

lemma bubCounts_go (rows : List (Nat × Nat)) : ∀ t : BubCounts,
    rows.foldl bub_step t =
      ⟨t.a + rows.countP presA, t.b + rows.countP presB,
       t.c + rows.countP presC, t.d + rows.countP presD⟩ := by
  induction rows with
  | nil =>
    intro t
    cases t
    simp [List.countP_nil]
  | cons p rest ih =>
    intro t
    rw [List.foldl_cons, bub_step_eq]
    by_cases h1 : 1 ≤ p.1 ∧ 1 ≤ p.2
    · have hA : presA p = true := by simp only [presA, decide_eq_true_eq]; omega
      have hB : presB p = false := by
        simp only [presB, decide_eq_false_iff_not]; omega
      have hC : presC p = false := by
        simp only [presC, decide_eq_false_iff_not]; omega
      have hD : presD p = false := by
        simp only [presD, decide_eq_false_iff_not]; omega
      rw [if_pos h1, ih]
      simp [List.countP_cons, hA, hB, hC, hD, BubCounts.mk.injEq] <;> omega
    · rw [if_neg h1]
      by_cases h2 : 1 ≤ p.1
      · have hA : presA p = false := by
          simp only [presA, decide_eq_false_iff_not]; omega
        have hB : presB p = true := by simp only [presB, decide_eq_true_eq]; omega
        have hC : presC p = false := by
          simp only [presC, decide_eq_false_iff_not]; omega
        have hD : presD p = false := by
          simp only [presD, decide_eq_false_iff_not]; omega
        rw [if_pos h2, ih]
        simp [List.countP_cons, hA, hB, hC, hD, BubCounts.mk.injEq] <;> omega
      · rw [if_neg h2]
        by_cases h3 : 1 ≤ p.2
        · have hA : presA p = false := by
            simp only [presA, decide_eq_false_iff_not]; omega
          have hB : presB p = false := by
            simp only [presB, decide_eq_false_iff_not]; omega
          have hC : presC p = true := by
            simp only [presC, decide_eq_true_eq]; omega
          have hD : presD p = false := by
            simp only [presD, decide_eq_false_iff_not]; omega
          rw [if_pos h3, ih]
          simp [List.countP_cons, hA, hB, hC, hD, BubCounts.mk.injEq] <;> omega
        · have hA : presA p = false := by
            simp only [presA, decide_eq_false_iff_not]; omega
          have hB : presB p = false := by
            simp only [presB, decide_eq_false_iff_not]; omega
          have hC : presC p = false := by
            simp only [presC, decide_eq_false_iff_not]; omega
          have hD : presD p = true := by simp only [presD, decide_eq_true_eq]; omega
          rw [if_neg h3, ih]
          simp [List.countP_cons, hA, hB, hC, hD, BubCounts.mk.injEq] <;> omega

lemma bubCounts_eq (rows : List (Nat × Nat)) :
    bubCounts rows =
      ⟨rows.countP presA, rows.countP presB, rows.countP presC,
       rows.countP presD⟩ := by
  rw [bubCounts, bubCounts_go rows ⟨0, 0, 0, 0⟩]
  simp

/-- C1: on a merged table whose two count columns are all zero (a = b = c = 0,
so the denominator `sqrt(a*d) + a + b + c` is zero) the unguarded division of
`baroni_urbani_buser_coefficient` raises ZeroDivisionError instead of
returning 0. -/
theorem c1_bub_zero_denominator_raises :
    baroni_urbani_buser_coefficient [("OTU_1", 0, 0), ("OTU_2", 0, 0)] =
      .error .zeroDivision := by
  have h : bubCounts ([(("OTU_1" : String), (0 : Nat), (0 : Nat)),
      ("OTU_2", 0, 0)].map (fun r => (r.2.1, r.2.2))) = ⟨0, 0, 0, 2⟩ := by decide
  simp only [baroni_urbani_buser_coefficient, h]
  rw [if_pos (by norm_num [bubDenom, Real.sqrt_zero])]

lemma bub_denom_eval (t : BubCounts) (ha : t.a = 0) :
    bubDenom t = ((t.b : ℝ) + (t.c : ℝ)) := by
  rw [bubDenom, ha]
  simp

/-- C6 counterexample: a merged table whose single taxon is absent from both
columns has identical (hence also disjoint) presence patterns, yet the
coefficient is neither 0 nor 1 — the code raises ZeroDivisionError. -/
theorem c6_bub_degenerate_counterexample :
    baroni_urbani_buser_coefficient [("OTU_9", 0, 0)] = .error .zeroDivision ∧
    baroni_urbani_buser_coefficient [("OTU_9", 0, 0)] ≠ .ok 0 ∧
    baroni_urbani_buser_coefficient [("OTU_9", 0, 0)] ≠ .ok 1 := by
  have h : baroni_urbani_buser_coefficient [("OTU_9", 0, 0)] =
      .error .zeroDivision := by
    have hc : bubCounts ([(("OTU_9" : String), (0 : Nat), (0 : Nat))].map
        (fun r => (r.2.1, r.2.2))) = ⟨0, 0, 0, 1⟩ := by decide
    simp only [baroni_urbani_buser_coefficient, hc]
    rw [if_pos (by norm_num [bubDenom, Real.sqrt_zero])]
  exact ⟨h, by rw [h]; simp, by rw [h]; simp⟩

/-- C6 (amended): for merged tables with at least one present taxon the BUB
coefficient behaves as claimed — disjoint presence patterns give 0 (provided
some taxon is present so the denominator is non-zero), identical presence
patterns give 1 (provided some taxon is co-present) — and it is symmetric in
the two sample columns unconditionally, error case included. Degenerate
all-absent tables raise instead (see the counterexample). -/
theorem c6_bub_properties_amended :
    (∀ df : List (String × Nat × Nat),
      (∀ r ∈ df, ¬(1 ≤ r.2.1 ∧ 1 ≤ r.2.2)) → (∃ r ∈ df, 1 ≤ r.2.1 ∨ 1 ≤ r.2.2) →
      baroni_urbani_buser_coefficient df = .ok 0) ∧
    (∀ df : List (String × Nat × Nat),
      (∀ r ∈ df, 1 ≤ r.2.1 ↔ 1 ≤ r.2.2) → (∃ r ∈ df, 1 ≤ r.2.1) →
      baroni_urbani_buser_coefficient df = .ok 1) ∧
    (∀ df : List (String × Nat × Nat),
      baroni_urbani_buser_coefficient (df.map (fun r => (r.1, r.2.2, r.2.1))) =
        baroni_urbani_buser_coefficient df) := by
  refine ⟨fun df hdisj hsome => ?_, fun df hiff hsome => ?_, fun df => ?_⟩
  · have ha : (bubCounts (df.map (fun r => (r.2.1, r.2.2)))).a = 0 := by
      rw [bubCounts_eq]
      rw [List.countP_eq_zero]
      intro p hp2
      rcases List.mem_map.mp hp2 with ⟨r, hr, rfl⟩
      simp only [presA, decide_eq_true_eq]
      exact hdisj r hr
    have hbc : 0 < (bubCounts (df.map (fun r => (r.2.1, r.2.2)))).b +
        (bubCounts (df.map (fun r => (r.2.1, r.2.2)))).c := by
      rcases hsome with ⟨r, hr, hror⟩
      rw [bubCounts_eq]
      have hd := hdisj r hr
      rcases hror with h1 | h2
      · have hpos : 0 < List.countP presB (df.map (fun r => (r.2.1, r.2.2))) := by
          rw [List.countP_pos_iff]
          refine ⟨(r.2.1, r.2.2), List.mem_map.mpr ⟨r, hr, rfl⟩, ?_⟩
          simp only [presB, decide_eq_true_eq]
          exact ⟨h1, by omega⟩
        simpa using Or.inl hpos
      · have hpos : 0 < List.countP presC (df.map (fun r => (r.2.1, r.2.2))) := by
          rw [List.countP_pos_iff]
          refine ⟨(r.2.1, r.2.2), List.mem_map.mpr ⟨r, hr, rfl⟩, ?_⟩
          simp only [presC, decide_eq_true_eq]
          exact ⟨by omega, h2⟩
        simpa using Or.inr hpos
    have hne : bubDenom (bubCounts (df.map (fun r => (r.2.1, r.2.2)))) ≠ 0 := by
      rw [bub_denom_eval _ ha]
      have : (0 : ℝ) <
          ((bubCounts (df.map (fun r => (r.2.1, r.2.2)))).b : ℝ) +
          ((bubCounts (df.map (fun r => (r.2.1, r.2.2)))).c : ℝ) := by
        exact_mod_cast hbc
      exact ne_of_gt this
    simp only [baroni_urbani_buser_coefficient]
    rw [if_neg hne]
    have hnum : Real.sqrt
        (((bubCounts (df.map (fun r => (r.2.1, r.2.2)))).a : ℝ) *
         ((bubCounts (df.map (fun r => (r.2.1, r.2.2)))).d : ℝ)) +
        ((bubCounts (df.map (fun r => (r.2.1, r.2.2)))).a : ℝ) = 0 := by
      rw [ha]
      simp
    rw [hnum, zero_div]
  · have hb : (bubCounts (df.map (fun r => (r.2.1, r.2.2)))).b = 0 := by
      rw [bubCounts_eq]
      rw [List.countP_eq_zero]
      intro p hp2
      rcases List.mem_map.mp hp2 with ⟨r, hr, rfl⟩
      simp only [presB, decide_eq_true_eq]
      rintro ⟨h1, h2⟩
      have := (hiff r hr).mp h1
      omega
    have hc : (bubCounts (df.map (fun r => (r.2.1, r.2.2)))).c = 0 := by
      rw [bubCounts_eq]
      rw [List.countP_eq_zero]
      intro p hp2
      rcases List.mem_map.mp hp2 with ⟨r, hr, rfl⟩
      simp only [presC, decide_eq_true_eq]
      rintro ⟨h1, h2⟩
      have := (hiff r hr).mpr h2
      omega
    have hapos : 0 < (bubCounts (df.map (fun r => (r.2.1, r.2.2)))).a := by
      rcases hsome with ⟨r, hr, h1⟩
      rw [bubCounts_eq]
      have hpos : 0 < List.countP presA (df.map (fun r => (r.2.1, r.2.2))) := by
        rw [List.countP_pos_iff]
        refine ⟨(r.2.1, r.2.2), List.mem_map.mpr ⟨r, hr, rfl⟩, ?_⟩
        simp only [presA, decide_eq_true_eq]
        exact ⟨h1, (hiff r hr).mp h1⟩
      simpa using hpos
    have hdpos : (0 : ℝ) < Real.sqrt
        (((bubCounts (df.map (fun r => (r.2.1, r.2.2)))).a : ℝ) *
         ((bubCounts (df.map (fun r => (r.2.1, r.2.2)))).d : ℝ)) +
        ((bubCounts (df.map (fun r => (r.2.1, r.2.2)))).a : ℝ) :=
      add_pos_of_nonneg_of_pos (Real.sqrt_nonneg _) (by exact_mod_cast hapos)
    have hden : bubDenom (bubCounts (df.map (fun r => (r.2.1, r.2.2)))) =
        Real.sqrt
          (((bubCounts (df.map (fun r => (r.2.1, r.2.2)))).a : ℝ) *
           ((bubCounts (df.map (fun r => (r.2.1, r.2.2)))).d : ℝ)) +
        ((bubCounts (df.map (fun r => (r.2.1, r.2.2)))).a : ℝ) := by
      rw [bubDenom, hb, hc]
      simp
    have hne : bubDenom (bubCounts (df.map (fun r => (r.2.1, r.2.2)))) ≠ 0 := by
      rw [hden]
      exact ne_of_gt hdpos
    simp only [baroni_urbani_buser_coefficient]
    rw [if_neg hne, hden, div_self (ne_of_gt hdpos)]
  · have hmap : (df.map (fun r => (r.1, r.2.2, r.2.1))).map
        (fun r => (r.2.1, r.2.2)) =
        (df.map (fun r => (r.2.1, r.2.2))).map Prod.swap := by
      simp only [List.map_map]
      rfl
    have eA : presA ∘ Prod.swap = presA := by
      funext p
      exact decide_eq_decide.mpr And.comm
    have eB : presB ∘ Prod.swap = presC := by
      funext p
      exact decide_eq_decide.mpr And.comm
    have eC : presC ∘ Prod.swap = presB := by
      funext p
      exact decide_eq_decide.mpr And.comm
    have eD : presD ∘ Prod.swap = presD := by
      funext p
      exact decide_eq_decide.mpr And.comm
    have hswap : bubCounts ((df.map (fun r => (r.2.1, r.2.2))).map Prod.swap) =
        ⟨(bubCounts (df.map (fun r => (r.2.1, r.2.2)))).a,
         (bubCounts (df.map (fun r => (r.2.1, r.2.2)))).c,
         (bubCounts (df.map (fun r => (r.2.1, r.2.2)))).b,
         (bubCounts (df.map (fun r => (r.2.1, r.2.2)))).d⟩ := by
      rw [bubCounts_eq, bubCounts_eq]
      simp only [List.countP_map, eA, eB, eC, eD]
    have hden : bubDenom
        ⟨(bubCounts (df.map (fun r => (r.2.1, r.2.2)))).a,
         (bubCounts (df.map (fun r => (r.2.1, r.2.2)))).c,
         (bubCounts (df.map (fun r => (r.2.1, r.2.2)))).b,
         (bubCounts (df.map (fun r => (r.2.1, r.2.2)))).d⟩ =
        bubDenom (bubCounts (df.map (fun r => (r.2.1, r.2.2)))) := by
      simp only [bubDenom]
      ring
    simp only [baroni_urbani_buser_coefficient]
    rw [hmap, hswap, hden]

/-- Witness for C6 at concrete tables: disjoint presence scores 0, identical
presence scores 1, and swapping the columns of a one-sided table changes
nothing. -/
theorem c6_bub_properties_witness :
    baroni_urbani_buser_coefficient [("OTU_1", 1, 0)] = .ok 0 ∧
    baroni_urbani_buser_coefficient [("OTU_1", 2, 3)] = .ok 1 ∧
    baroni_urbani_buser_coefficient [("OTU_1", 0, 4)] =
      baroni_urbani_buser_coefficient [("OTU_1", 4, 0)] :=
  ⟨c6_bub_properties_amended.1 [("OTU_1", 1, 0)] (by decide) (by decide),
   c6_bub_properties_amended.2.1 [("OTU_1", 2, 3)] (by decide) (by decide),
   c6_bub_properties_amended.2.2 [("OTU_1", 4, 0)]⟩

lemma candidate_step_cases {cent : Sample} {i j : Nat} {sur : Sample}
    {st st' : SimState} (h : candidate_step cent i j sur st = .ok st') :
    st' = st ∨ ∃ v : ℝ, st'.1 = st.1 ++ [v] ∧
      (st'.2 = st.2 ∨ (v > st.2.1 ∧ st'.2 = (v, sur.folder))) := by
  unfold candidate_step at h
  repeat' split at h
  all_goals first
    | (cases h; exact Or.inl rfl)
    | (cases h; exact Or.inr ⟨_, rfl, Or.inl rfl⟩)
    | (cases h; exact Or.inr ⟨_, rfl, Or.inr ⟨by assumption, rfl⟩⟩)
    | exact (Except.noConfusion h)

lemma inner_loop_mem (cent : Sample) (i : Nat) : ∀ (cands : List Sample)
    (j : Nat) (st : SimState) (L : List ℝ) (h : ℝ) (m : String),
    inner_loop cent i cands j st = .ok (L, h, m) → ∀ x ∈ st.1, x ∈ L := by
  intro cands
  induction cands with
  | nil =>
    intro j st L h m hloop x hx
    cases hloop
    exact hx
  | cons sur rest ih =>
    intro j st L h m hloop x hx
    simp only [inner_loop] at hloop
    rcases hcs : candidate_step cent i j sur st with e | st'
    · rw [hcs] at hloop
      simp at hloop
    · rw [hcs] at hloop
      rcases candidate_step_cases hcs with h1 | ⟨v, hv1, _⟩
      · exact ih (j + 1) st' L h m hloop x (by rw [h1]; exact hx)
      · exact ih (j + 1) st' L h m hloop x
          (by rw [hv1]; exact List.mem_append.mpr (Or.inl hx))

lemma inner_loop_zero (cent : Sample) (i : Nat) : ∀ (cands : List Sample)
    (j : Nat) (s : List ℝ) (L : List ℝ) (h : ℝ) (m : String),
    inner_loop cent i cands j (s, 0, "") = .ok (L, h, m) →
    (∀ v ∈ L, ¬ v > 0) → h = 0 ∧ m = "" := by
  intro cands
  induction cands with
  | nil =>
    intro j s L h m hloop hall
    cases hloop
    exact ⟨rfl, rfl⟩
  | cons sur rest ih =>
    intro j s L h m hloop hall
    simp only [inner_loop] at hloop
    rcases hcs : candidate_step cent i j sur (s, 0, "") with e | st'
    · rw [hcs] at hloop
      simp at hloop
    · rw [hcs] at hloop
      rcases candidate_step_cases hcs with h1 | ⟨v, hv1, hcase⟩
      · rw [h1] at hloop
        exact ih (j + 1) s L h m hloop hall
      · rcases hcase with h2 | ⟨hgt, h2⟩
        · have hv1' : st'.1 = s ++ [v] := hv1
          have h2' : st'.2 = ((0 : ℝ), ("" : String)) := h2
          have hst' : st' = (s ++ [v], 0, "") := by
            rw [← hv1', ← h2']
          rw [hst'] at hloop
          exact ih (j + 1) (s ++ [v]) L h m hloop hall
        · have hvL : v ∈ L :=
            inner_loop_mem cent i rest (j + 1) st' L h m hloop v
              (by rw [hv1]; simp)
          exact absurd hgt (hall v hvL)

lemma outer_loop_ok (all : List Sample) : ∀ (l : List Sample) (i : Nat)
    (out : List Sample) (sims : List ℝ),
    outer_loop all l i = .ok (out, sims) →
    out.length = l.length ∧
    ∀ k, k < l.length → ∃ scs,
      center_step all (i + k) (l.getD k dummySample) =
        .ok (out.getD k dummySample, scs) := by
  intro l
  induction l with
  | nil =>
    intro i out sims hloop
    cases hloop
    exact ⟨rfl, fun k hk => absurd hk (by simp)⟩
  | cons c rest ih =>
    intro i out sims hloop
    simp only [outer_loop] at hloop
    rcases hc : center_step all i c with e | p
    · rw [hc] at hloop
      simp at hloop
    · rcases p with ⟨c', scs⟩
      rw [hc] at hloop
      rcases hr : outer_loop all rest (i + 1) with e | q
      · rw [hr] at hloop
        simp at hloop
      · rcases q with ⟨rest', scsr⟩
        rw [hr] at hloop
        cases hloop
        obtain ⟨hlen, hks⟩ := ih (i + 1) rest' scsr hr
        refine ⟨by simp [hlen], fun k hk => ?_⟩
        cases k with
        | zero => exact ⟨scs, by simpa using hc⟩
        | succ k' =>
          obtain ⟨scs', hcs'⟩ := hks k' (by simpa using hk)
          refine ⟨scs', ?_⟩
          have harith : i + (k' + 1) = (i + 1) + k' := by omega
          rw [harith]
          simpa [List.getD] using hcs'

/-- C10: after a completed similarity pass, a sample that is not
"Successful" is returned exactly as it went in (so it keeps its initial
`sim = 0` and `sim_sample = no_value`: `assign_most_sim_sample` is never
called on it), while every "Successful" sample is assigned the result of its
inner loop — and when no candidate scored strictly above 0, that result is
`sim = 0.0` and `sim_sample = ""`. -/
theorem c10_no_match_representation (all updated : List Sample) (sims : List ℝ)
    (hp : sim_pass all = .ok (updated, sims)) :
    updated.length = all.length ∧
    ∀ k, k < all.length →
      ((all.getD k dummySample).pass_fail ≠ "Successful" →
        updated.getD k dummySample = all.getD k dummySample) ∧
      ((all.getD k dummySample).pass_fail = "Successful" →
        ∀ L h m,
          inner_loop (all.getD k dummySample) k all 0 ([], 0, "") = .ok (L, h, m) →
          (updated.getD k dummySample).sim = h ∧
          (updated.getD k dummySample).sim_sample = m ∧
          ((∀ v ∈ L, ¬ v > 0) →
            (updated.getD k dummySample).sim = 0 ∧
            (updated.getD k dummySample).sim_sample = "")) := by
  obtain ⟨hlen, hks⟩ := outer_loop_ok all all 0 updated sims hp
  refine ⟨hlen, fun k hk => ?_⟩
  obtain ⟨scs, hcs⟩ := hks k hk
  rw [Nat.zero_add] at hcs
  constructor
  · intro hpf
    unfold center_step at hcs
    rw [if_pos hpf] at hcs
    have h1 := Except.ok.inj hcs
    exact (congrArg Prod.fst h1).symm
  · intro hpf L h m hloop
    unfold center_step at hcs
    rw [if_neg (not_ne_iff.mpr hpf)] at hcs
    rw [hloop] at hcs
    have h1 := Except.ok.inj hcs
    have h2 : updated.getD k dummySample =
        { all.getD k dummySample with sim := h, sim_sample := m } :=
      (congrArg Prod.fst h1).symm
    refine ⟨by rw [h2], by rw [h2], fun hall => ?_⟩
    obtain ⟨hz1, hz2⟩ :=
      inner_loop_zero (all.getD k dummySample) k all 0 [] L h m hloop hall
    constructor
    · rw [h2]
      exact hz1
    · rw [h2]
      exact hz2

/-- Witness for C10: on a two-sample registry the unsuccessful sample is
untouched and the successful one, with no scoring candidate, ends at
`sim = 0`, `sim_sample = ""`. -/
theorem c10_no_match_representation_witness :
    c10_updated.getD 1 dummySample = [c10_successful, c10_failed].getD 1 dummySample ∧
    (c10_updated.getD 0 dummySample).sim = 0 ∧
    (c10_updated.getD 0 dummySample).sim_sample = "" := by
  have h := c10_no_match_representation [c10_successful, c10_failed] c10_updated [] rfl
  refine ⟨(h.2 1 (by decide)).1 (by decide), ?_, ?_⟩
  · exact ((h.2 0 (by decide)).2 rfl [] 0 "" rfl).2.2 (by simp) |>.1
  · exact ((h.2 0 (by decide)).2 rfl [] 0 "" rfl).2.2 (by simp) |>.2

/-- C3 counterexample: a run that computes zero pairwise coefficients makes
`perform_similarity_checks` raise StatisticsError at the mean, so it does not
complete and the best-match sheet is never produced. -/
theorem c3_stats_crash_counterexample :
    perform_similarity_checks [] = .error .statisticsError := rfl

/-- C3 (amended): whenever the assignment pass completes having computed
fewer than 2 pairwise coefficients, `perform_similarity_checks` raises
StatisticsError (from `stat.mean` with zero coefficients, from `stat.stdev`
with one) and the per-sample best-match output is not produced. -/
theorem c3_stats_crash_amended (all updated : List Sample) (sims : List ℝ)
    (hp : sim_pass all = .ok (updated, sims)) (hlen : sims.length < 2) :
    perform_similarity_checks all = .error .statisticsError := by
  unfold perform_similarity_checks
  rw [hp]
  rcases sims with _ | ⟨x, rest⟩
  · simp [pyMean]
  · rcases rest with _ | ⟨y, rest2⟩
    · simp [pyMean, pyStdev]
    · exfalso
      simp at hlen
      omega

/-- Witness for C3: a single unsuccessful sample yields zero coefficients and
the run dies at the statistics step. -/
theorem c3_stats_crash_witness :
    perform_similarity_checks [c3_failed_sample] = .error .statisticsError :=
  c3_stats_crash_amended [c3_failed_sample] [c3_failed_sample] [] rfl (by decide)

lemma region_ctrl_loop_empty (region : String) : ∀ (l : List Sample)
    (acc : Option (Option DF)),
    (∀ s ∈ l, ¬(s.region = region ∧ s.count ≥ 3000)) →
    region_ctrl_loop region l acc = .ok acc := by
  intro l
  induction l with
  | nil => intro acc _; rfl
  | cons s rest ih =>
    intro acc hnone
    simp only [region_ctrl_loop]
    rw [if_neg (hnone s (List.mem_cons_self s rest))]
    exact ih acc (fun t ht => hnone t (List.mem_cons_of_mem s ht))

lemma region_reg_loop_empty (region : String) : ∀ (l : List Sample)
    (st : List (String × String × String) × Option (Option DF)),
    (∀ s ∈ l, ¬(s.region = region ∧ s.count ≥ 3000)) →
    region_reg_loop region l st = .ok st := by
  intro l
  induction l with
  | nil => intro st _; rfl
  | cons s rest ih =>
    intro st hnone
    rcases st with ⟨dict, acc⟩
    simp only [region_reg_loop]
    rw [if_neg (hnone s (List.mem_cons_self s rest))]
    exact ih (dict, acc) (fun t ht => hnone t (List.mem_cons_of_mem s ht))

lemma tr_outer_loop_empty (samples : List Sample) (region : String) :
    ∀ (l : List Sample) (st : Option String × Option (Option DF)),
    (∀ s ∈ l, ¬(s.region = "TR" ∧ s.count ≥ 3000)) →
    tr_outer_loop samples region l st = .ok st := by
  intro l
  induction l with
  | nil => intro st _; rfl
  | cons s rest ih =>
    intro st hnone
    rcases st with ⟨ofn, acc⟩
    simp only [tr_outer_loop]
    rw [if_neg (hnone s (List.mem_cons_self s rest))]
    exact ih (ofn, acc) (fun t ht => hnone t (List.mem_cons_of_mem s ht))

lemma community_loop_empty (keep ctrl : List String) : ∀ (l : List Sample)
    (acc : Option (Option DF)),
    (∀ s ∈ l, ¬(s.count ≥ 1 ∧ s.region ∈ keep)) →
    community_loop keep ctrl l acc = .ok acc := by
  intro l
  induction l with
  | nil => intro acc _; rfl
  | cons s rest ih =>
    intro acc hnone
    simp only [community_loop]
    rw [if_neg (hnone s (List.mem_cons_self s rest))]
    exact ih acc (fun t ht => hnone t (List.mem_cons_of_mem s ht))

/-- C5 counterexample: with no qualifying sample at all, the
community-analysis export does NOT complete without raising — the final
`format_df(main_df)` sits outside the exception guard and dies with an
UnboundLocalError. -/
theorem c5_community_export_raises_counterexample :
    community_analysis_export [] ["all"] control_regions = .error .unboundLocal := rfl

/-- C5 (amended): for a region or control category (other than the `no_value`
sentinel) with no qualifying sample, the per-region export completes without
raising — an empty result plus the diagnostic — but `community_analysis_export`
raises UnboundLocalError when no sample qualifies for the keep list. -/
theorem c5_empty_merge_amended (region : String) (samples : List Sample)
    (keep : List String) (hreg : region ≠ no_value)
    (hnone : ∀ s ∈ samples, ¬(s.region = region ∧ s.count ≥ 3000))
    (hkeep : ∀ s ∈ samples,
      ¬(s.count ≥ 1 ∧ s.region ∈
        (if keep.headD "" = "all" then community_keep_all else keep)))
    (hk0 : keep ≠ []) :
    filter_otus_by_region region samples control_regions = .ok .noneQualifying ∧
    community_analysis_export samples keep control_regions =
      .error .unboundLocal := by
  constructor
  · unfold filter_otus_by_region
    rw [if_neg hreg]
    by_cases hTR : region = "TR"
    · rw [if_pos hTR]
      rw [tr_outer_loop_empty samples region samples (none, none)
        (fun s hs => by rw [← hTR]; exact hnone s hs)]
    · rw [if_neg hTR]
      by_cases hc : region ∈ control_regions
      · rw [if_pos hc, region_ctrl_loop_empty region samples none hnone]
      · rw [if_neg hc, region_reg_loop_empty region samples ([], none) hnone]
  · unfold community_analysis_export
    rcases keep with _ | ⟨k0, krest⟩
    · exact absurd rfl hk0
    · have hkeep' : ∀ s ∈ samples,
          ¬(s.count ≥ 1 ∧ s.region ∈
            (if k0 = "all" then community_keep_all else k0 :: krest)) := hkeep
      dsimp only
      rw [community_loop_empty _ control_regions samples none hkeep']

/-- Witness for C5: region "Midlands" with only a "Wales" sample exports
nothing without raising; the community export on the same registry raises. -/
theorem c5_empty_merge_witness :
    filter_otus_by_region "Midlands" [c5_sample] control_regions =
      .ok .noneQualifying ∧
    community_analysis_export [c5_sample] ["all"] control_regions =
      .error .unboundLocal := by
  have h := c5_empty_merge_amended "Midlands" [c5_sample] ["all"] (by decide)
    (by decide) (by decide) (by decide)
  exact ⟨h.1, h.2⟩
